import Mathlib

/-
Verification of the structural-metadata property decoding and validation
engine of cesium-native (CesiumGltf/PropertyView.h).

The constructors, accessors and codecs below are shallow embeddings of the
code in src/CesiumGltf/include/CesiumGltf/PropertyView.h.  Supporting types
whose headers are not part of src/ (the ClassProperty revision used by
PropertyView.h, PropertyTableProperty / PropertyTextureProperty,
CesiumUtility::JsonValue, PropertyType / PropertyComponentType and the
conversion helpers, and the normalization arithmetic of
PropertyTransformations.h) are modelled from the spec, as marked on each
definition.

Numeric values (C++ doubles, floats and the integer component types) are
modelled as rationals; the safe numeric extraction of the JSON capability
(JsonValue::getSafeNumber, which converts out-of-range or non-numeric input
into "no value" rather than raising) is modelled per component type: an
integer component type accepts exactly the integral numbers inside its
range, a floating component type accepts every number.
-/

namespace CesiumGltf

/-- The closed status enumeration of `PropertyViewStatus`
(PropertyView.h, lines 26-92). -/
inductive PropertyViewStatus where
  | Valid
  | ErrorNonexistentProperty
  | ErrorTypeMismatch
  | ErrorComponentTypeMismatch
  | ErrorArrayTypeMismatch
  | ErrorInvalidNormalization
  | ErrorInvalidOffset
  | ErrorInvalidScale
  | ErrorInvalidMax
  | ErrorInvalidMin
  | ErrorInvalidNoDataValue
  | ErrorInvalidDefaultValue
  deriving DecidableEq

/-- Modelled from the spec: the component-type enumeration
(`PropertyComponentType`), integer widths 8/16/32/64 signed/unsigned,
32/64-bit float, plus the `None` member used for component-less shapes
and for the string-array offset type. -/
inductive PropertyComponentType where
  | cnone
  | int8
  | uint8
  | int16
  | uint16
  | int32
  | uint32
  | int64
  | uint64
  | float32
  | float64
  deriving DecidableEq

/-- Modelled from the spec: the type-tag enumeration (`PropertyType`):
SCALAR / VECN / MATN / BOOLEAN / STRING / ENUM, with an invalid member for
unrecognized tags. -/
inductive PropertyType where
  | Invalid
  | Scalar
  | Vec2
  | Vec3
  | Vec4
  | Mat2
  | Mat3
  | Mat4
  | Boolean
  | Str
  | Enum
  deriving DecidableEq

/-- Modelled from the spec: the JSON-node capability — a node is a
null/bool/number/string/array; numbers are modelled as rationals. -/
inductive JsonValue where
  | jnull
  | jbool (b : Bool)
  | jnum (q : ℚ)
  | jstr (s : String)
  | jarr (xs : List JsonValue)

/-- Modelled from the spec: the Schema Descriptor (`ClassProperty`) fields
read by the PropertyView constructors — type tag, optional component type,
array flag with optional fixed count, normalized and required flags, and
six optional raw-JSON fields.  (The generated ClassProperty.h revision
that PropertyView.h compiles against is not under src/; src/ holds an
older revision without these fields.) -/
structure ClassProperty where
  type : String
  componentType : Option String
  array : Bool
  count : Option Int
  normalized : Bool
  required : Bool
  offset : Option JsonValue
  scale : Option JsonValue
  max : Option JsonValue
  min : Option JsonValue
  noData : Option JsonValue
  defaultProperty : Option JsonValue

/-- Modelled from the spec: the Override Descriptor — the raw-JSON
offset/scale/max/min carried by a `PropertyTableProperty` or a
`PropertyTextureProperty` (their generated headers are not under src/).
The two override constructors of each view have token-identical bodies,
so a single structure serves both. -/
structure PropertyOverride where
  offset : Option JsonValue
  scale : Option JsonValue
  max : Option JsonValue
  min : Option JsonValue

/-- Modelled from the spec: mapping of a declared type-tag string to the
type enumeration (`convertStringToPropertyType`). -/
def convertStringToPropertyType (s : String) : PropertyType :=
  if s = "SCALAR" then .Scalar
  else if s = "VEC2" then .Vec2
  else if s = "VEC3" then .Vec3
  else if s = "VEC4" then .Vec4
  else if s = "MAT2" then .Mat2
  else if s = "MAT3" then .Mat3
  else if s = "MAT4" then .Mat4
  else if s = "BOOLEAN" then .Boolean
  else if s = "STRING" then .Str
  else if s = "ENUM" then .Enum
  else .Invalid

/-- Modelled from the spec: mapping of a declared component-type string to
the component-type enumeration (`convertStringToPropertyComponentType`). -/
def convertStringToPropertyComponentType (s : String) : PropertyComponentType :=
  if s = "INT8" then .int8
  else if s = "UINT8" then .uint8
  else if s = "INT16" then .int16
  else if s = "UINT16" then .uint16
  else if s = "INT32" then .int32
  else if s = "UINT32" then .uint32
  else if s = "INT64" then .int64
  else if s = "UINT64" then .uint64
  else if s = "FLOAT32" then .float32
  else if s = "FLOAT64" then .float64
  else .cnone

/-- Whether a component type is one of the two floating-point types
(the `Float32` / `Float64` cases of the switches in PropertyView.h). -/
def isFloatingComp : PropertyComponentType → Bool
  | .float32 => true
  | .float64 => true
  | _ => false

/-- Whether a component type is one of the eight integer types. -/
def isIntegerComp : PropertyComponentType → Bool
  | .int8 => true
  | .uint8 => true
  | .int16 => true
  | .uint16 => true
  | .int32 => true
  | .uint32 => true
  | .int64 => true
  | .uint64 => true
  | _ => false

/-- Whether an integer component type is signed. -/
def isSignedComp : PropertyComponentType → Bool
  | .int8 => true
  | .int16 => true
  | .int32 => true
  | .int64 => true
  | _ => false

/-- Smallest representable value of an integer component type. -/
def intMinOf : PropertyComponentType → Int
  | .int8 => -(2 ^ 7)
  | .uint8 => 0
  | .int16 => -(2 ^ 15)
  | .uint16 => 0
  | .int32 => -(2 ^ 31)
  | .uint32 => 0
  | .int64 => -(2 ^ 63)
  | .uint64 => 0
  | _ => 0

/-- Largest representable value of an integer component type. -/
def intMaxOf : PropertyComponentType → Int
  | .int8 => 2 ^ 7 - 1
  | .uint8 => 2 ^ 8 - 1
  | .int16 => 2 ^ 15 - 1
  | .uint16 => 2 ^ 16 - 1
  | .int32 => 2 ^ 31 - 1
  | .uint32 => 2 ^ 32 - 1
  | .int64 => 2 ^ 63 - 1
  | .uint64 => 2 ^ 64 - 1
  | _ => 0

/-- Byte size of one component (`sizeof` of the component's C++ type). -/
def sizeofComp : PropertyComponentType → Nat
  | .cnone => 0
  | .int8 => 1
  | .uint8 => 1
  | .int16 => 2
  | .uint16 => 2
  | .int32 => 4
  | .uint32 => 4
  | .int64 => 8
  | .uint64 => 8
  | .float32 => 4
  | .float64 => 8

/-- The requested native element shape: a scalar, an N-component vector,
or an N-by-N matrix over a component type.  This stands for the
`ElementType` template parameter of `PropertyView`. -/
inductive MetadataShape where
  | scalar (ct : PropertyComponentType)
  | vecN (n : Nat) (ct : PropertyComponentType)
  | matN (n : Nat) (ct : PropertyComponentType)
  deriving DecidableEq

/-- `TypeToPropertyType<ElementType>::component` — the component type of a
shape. -/
def shapeComponent : MetadataShape → PropertyComponentType
  | .scalar ct => ct
  | .vecN _ ct => ct
  | .matN _ ct => ct

/-- `TypeToPropertyType<ElementType>::value` — the type tag of a shape. -/
def shapeKind : MetadataShape → PropertyType
  | .scalar _ => .Scalar
  | .vecN n _ =>
    if n = 2 then .Vec2 else if n = 3 then .Vec3 else if n = 4 then .Vec4 else .Invalid
  | .matN n _ =>
    if n = 2 then .Mat2 else if n = 3 then .Mat3 else if n = 4 then .Mat4 else .Invalid

/-- Number of rational components carried by one value of a shape. -/
def shapeLen : MetadataShape → Nat
  | .scalar _ => 1
  | .vecN n _ => n
  | .matN n _ => n * n

/-- `sizeof(ElementType)` of a shape. -/
def sizeofShape (sh : MetadataShape) : Nat :=
  shapeLen sh * sizeofComp (shapeComponent sh)

/-- Modelled from the spec: `TypeToNormalizedType` maps an integer shape to
the same shape over double, the type in which normalized offsets, scales
and bounds are parsed. -/
def normShape : MetadataShape → MetadataShape
  | .scalar _ => .scalar .float64
  | .vecN n _ => .vecN n .float64
  | .matN n _ => .matN n .float64

/-- `getScalar<T>` (PropertyView.h lines 154-163): safe numeric extraction
of one component.  A non-number fails; an integer component type rejects
non-integral or out-of-range numbers; a floating component type accepts
every number. -/
def getScalar (ct : PropertyComponentType) (j : JsonValue) : Option ℚ :=
  match j with
  | .jnum q =>
    if isFloatingComp ct then some q
    else if isIntegerComp ct then
      if q.den = 1 ∧ intMinOf ct ≤ q.num ∧ q.num ≤ intMaxOf ct then some q else none
    else none
  | _ => none

/-- All-or-nothing parse of a list of JSON nodes as components
(the per-component loops of `getVecN` / `getMatN`). -/
def parseComponents (ct : PropertyComponentType) (xs : List JsonValue) : Option (List ℚ) :=
  xs.mapM (getScalar ct)

/-- `getValue` dispatch of the scalar views (PropertyView.h lines 628-641,
973-986): parse one element of the requested shape.  A vector needs an
array of exactly N parseable components, a matrix exactly N*N
(`getVecN` lines 165-191, `getMatN` lines 193-222); parsing is
all-or-nothing.  The value is the flat component list. -/
def getValue (sh : MetadataShape) (j : JsonValue) : Option (List ℚ) :=
  match sh with
  | .scalar ct => (getScalar ct j).map (fun q => [q])
  | .vecN n ct =>
    match j with
    | .jarr xs => if xs.length = n then parseComponents ct xs else none
    | _ => none
  | .matN n ct =>
    match j with
    | .jarr xs => if xs.length = n * n then parseComponents ct xs else none
    | _ => none

/-- `getArrayValue` of the numeric array views (PropertyView.h lines
1691-1737 and 2122-2170): a JSON array each of whose elements parses as
the element shape, all-or-nothing; the result stands for the packed byte
buffer, kept as the list of parsed elements (the buffer's byte length is
the element count times `sizeof(ElementType)`). -/
def getArrayValue (sh : MetadataShape) (j : JsonValue) : Option (List (List ℚ)) :=
  match j with
  | .jarr xs => xs.mapM (getValue sh)
  | _ => none

/-- Byte length of the packed buffer produced by `getArrayValue`
(`values.size() * sizeof(ElementType)`, PropertyView.h line 1733). -/
def arrayByteSize (sh : MetadataShape) (xs : List (List ℚ)) : Int :=
  (xs.length * sizeofShape sh : Nat)

/-- `validatePropertyType<ElementType>` (PropertyView.h lines 95-122):
type tag, component type, then non-array-ness, first failure wins. -/
def validatePropertyType (sh : MetadataShape) (cp : ClassProperty) : PropertyViewStatus :=
  if shapeKind sh ≠ convertStringToPropertyType cp.type then .ErrorTypeMismatch
  else if cp.componentType = none then .ErrorComponentTypeMismatch
  else if (cp.componentType.map convertStringToPropertyComponentType) ≠
      some (shapeComponent sh) then .ErrorComponentTypeMismatch
  else if cp.array then .ErrorArrayTypeMismatch
  else .Valid

/-- `validateArrayPropertyType<PropertyArrayView<ElementType>>`
(PropertyView.h lines 124-152): same checks against the element shape,
but the declaration must be an array. -/
def validateArrayPropertyType (sh : MetadataShape) (cp : ClassProperty) : PropertyViewStatus :=
  if shapeKind sh ≠ convertStringToPropertyType cp.type then .ErrorTypeMismatch
  else if cp.componentType = none then .ErrorComponentTypeMismatch
  else if (cp.componentType.map convertStringToPropertyComponentType) ≠
      some (shapeComponent sh) then .ErrorComponentTypeMismatch
  else if cp.array = false then .ErrorArrayTypeMismatch
  else .Valid

/-- `validateArrayPropertyType<PropertyArrayView<std::string_view>>`: the
string shape has no component-type concept (`expectedComponentType` is
`None`), so an absent component type passes and a present one fails only
when it converts to a real component type. -/
def validateStringArrayPropertyType (cp : ClassProperty) : PropertyViewStatus :=
  if convertStringToPropertyType cp.type ≠ .Str then .ErrorTypeMismatch
  else if (match cp.componentType with
      | some s => decide (convertStringToPropertyComponentType s ≠ .cnone)
      | none => false) = true then .ErrorComponentTypeMismatch
  else if cp.array = false then .ErrorArrayTypeMismatch
  else .Valid

/-- The derived state of a non-array property view: status plus the
resolved offset/scale/max/min/required/noData/default fields
(the data members of `PropertyView<ElementType, Normalized>`). -/
structure ScalarViewData where
  status : PropertyViewStatus
  offset : Option (List ℚ)
  scale : Option (List ℚ)
  max : Option (List ℚ)
  min : Option (List ℚ)
  required : Bool
  noData : Option (List ℚ)
  defaultValue : Option (List ℚ)
  deriving DecidableEq

/-- Sequencing of constructor blocks: the second component of a pair is
the early-return flag — once a block has executed `return`, the blocks
after it do not run. -/
def seqBlock {α : Type} (p : α × Bool) (f : α → α × Bool) : α × Bool :=
  if p.2 then p else f p.1

/-- Offset block of `PropertyView<ElementType, false>` (PropertyView.h
lines 280-295, and identically lines 389-404 / 456-471 of the override
constructors): only floating-point component types may specify an offset;
a parse failure or a non-float component type sets `ErrorInvalidOffset`
and returns. -/
def scalarOffsetBlock (sh : MetadataShape) (j? : Option JsonValue) (v : ScalarViewData) :
    ScalarViewData × Bool :=
  match j? with
  | none => (v, false)
  | some j =>
    if isFloatingComp (shapeComponent sh) then
      match getValue sh j with
      | some x => ({ v with offset := some x }, false)
      | none => ({ v with status := .ErrorInvalidOffset }, true)
    else ({ v with status := .ErrorInvalidOffset }, true)

/-- Scale block of `PropertyView<ElementType, false>` (PropertyView.h
lines 297-312, and identically in the override constructors). -/
def scalarScaleBlock (sh : MetadataShape) (j? : Option JsonValue) (v : ScalarViewData) :
    ScalarViewData × Bool :=
  match j? with
  | none => (v, false)
  | some j =>
    if isFloatingComp (shapeComponent sh) then
      match getValue sh j with
      | some x => ({ v with scale := some x }, false)
      | none => ({ v with status := .ErrorInvalidScale }, true)
    else ({ v with status := .ErrorInvalidScale }, true)

/-- Max block of `PropertyView<ElementType, false>` (PropertyView.h lines
314-321): `_max` is assigned the parse result, and the error condition
tested is `!_scale` — the view errors exactly when no scale has been
resolved, not when the max value failed to parse. -/
def scalarMaxBlock (sh : MetadataShape) (j? : Option JsonValue) (v : ScalarViewData) :
    ScalarViewData × Bool :=
  match j? with
  | none => (v, false)
  | some j =>
    let v := { v with max := getValue sh j }
    if v.scale = none then ({ v with status := .ErrorInvalidMax }, true) else (v, false)

/-- Min block of `PropertyView<ElementType, false>` (PropertyView.h lines
323-330): like the max block, the condition tested is `!_scale`. -/
def scalarMinBlock (sh : MetadataShape) (j? : Option JsonValue) (v : ScalarViewData) :
    ScalarViewData × Bool :=
  match j? with
  | none => (v, false)
  | some j =>
    let v := { v with min := getValue sh j }
    if v.scale = none then ({ v with status := .ErrorInvalidMin }, true) else (v, false)

/-- NoData block of `PropertyView<ElementType, false>` (PropertyView.h
lines 332-343): parsed only when the property is not required; a missing
parse result (including the required case) sets
`ErrorInvalidNoDataValue`. -/
def scalarNoDataBlock (sh : MetadataShape) (j? : Option JsonValue) (v : ScalarViewData) :
    ScalarViewData × Bool :=
  match j? with
  | none => (v, false)
  | some j =>
    let v := if v.required = false then { v with noData := getValue sh j } else v
    if v.noData = none then ({ v with status := .ErrorInvalidNoDataValue }, true) else (v, false)

/-- Default block of `PropertyView<ElementType, false>` (PropertyView.h
lines 345-356). -/
def scalarDefaultBlock (sh : MetadataShape) (j? : Option JsonValue) (v : ScalarViewData) :
    ScalarViewData × Bool :=
  match j? with
  | none => (v, false)
  | some j =>
    let v := if v.required = false then { v with defaultValue := getValue sh j } else v
    if v.defaultValue = none then
      ({ v with status := .ErrorInvalidDefaultValue }, true)
    else (v, false)

/-- `PropertyView<ElementType, false>::PropertyView(const ClassProperty&)`
(PropertyView.h lines 262-357): type validation, then the normalization
check (`classProperty.normalized` sets `ErrorInvalidNormalization` and
returns), then offset, scale, max, min, noData, default in order, each
with its own early return. -/
def propertyViewScalar (sh : MetadataShape) (cp : ClassProperty) : ScalarViewData :=
  let v0 : ScalarViewData :=
    { status := validatePropertyType sh cp, offset := none, scale := none, max := none,
      min := none, required := cp.required, noData := none, defaultValue := none }
  let p := if v0.status ≠ .Valid then (v0, true) else (v0, false)
  let p := seqBlock p (fun v =>
    if cp.normalized then ({ v with status := .ErrorInvalidNormalization }, true) else (v, false))
  let p := seqBlock p (scalarOffsetBlock sh cp.offset)
  let p := seqBlock p (scalarScaleBlock sh cp.scale)
  let p := seqBlock p (scalarMaxBlock sh cp.max)
  let p := seqBlock p (scalarMinBlock sh cp.min)
  let p := seqBlock p (scalarNoDataBlock sh cp.noData)
  let p := seqBlock p (scalarDefaultBlock sh cp.defaultProperty)
  p.1

/-- Override re-resolution of
`PropertyView<ElementType, false>::PropertyView(const ClassProperty&,
const PropertyTableProperty&)` and the token-identical
`PropertyTextureProperty` constructor (PropertyView.h lines 379-440 and
446-507): starting from the class-level view, when it is Valid the
override's offset/scale/max/min are re-resolved with the same blocks as
class-level resolution. -/
def applyScalarOverride (sh : MetadataShape) (ov : PropertyOverride) (v0 : ScalarViewData) :
    ScalarViewData :=
  let p := if v0.status ≠ .Valid then (v0, true) else (v0, false)
  let p := seqBlock p (scalarOffsetBlock sh ov.offset)
  let p := seqBlock p (scalarScaleBlock sh ov.scale)
  let p := seqBlock p (scalarMaxBlock sh ov.max)
  let p := seqBlock p (scalarMinBlock sh ov.min)
  p.1

/-- `PropertyView<ElementType, false>::PropertyView(const ClassProperty&,
const PropertyTableProperty&)` (PropertyView.h lines 379-440). -/
def propertyViewScalarTable (sh : MetadataShape) (cp : ClassProperty) (ov : PropertyOverride) :
    ScalarViewData :=
  applyScalarOverride sh ov (propertyViewScalar sh cp)

/-- `PropertyView<ElementType, false>::PropertyView(const ClassProperty&,
const PropertyTextureProperty&)` (PropertyView.h lines 446-507). -/
def propertyViewScalarTexture (sh : MetadataShape) (cp : ClassProperty) (ov : PropertyOverride) :
    ScalarViewData :=
  applyScalarOverride sh ov (propertyViewScalar sh cp)

/-- Offset block of the normalized view
`PropertyView<ElementType, true>` (PropertyView.h lines 699-706): parsed
as the normalized (double-based) shape, no float gating; a parse failure
sets `ErrorInvalidOffset` and returns. -/
def normOffsetBlock (sh : MetadataShape) (j? : Option JsonValue) (v : ScalarViewData) :
    ScalarViewData × Bool :=
  match j? with
  | none => (v, false)
  | some j =>
    match getValue (normShape sh) j with
    | some x => ({ v with offset := some x }, false)
    | none => ({ v with status := .ErrorInvalidOffset }, true)

/-- Scale block of the normalized view (PropertyView.h lines 708-715). -/
def normScaleBlock (sh : MetadataShape) (j? : Option JsonValue) (v : ScalarViewData) :
    ScalarViewData × Bool :=
  match j? with
  | none => (v, false)
  | some j =>
    match getValue (normShape sh) j with
    | some x => ({ v with scale := some x }, false)
    | none => ({ v with status := .ErrorInvalidScale }, true)

/-- Max block of the normalized view (PropertyView.h lines 717-724): the
parse result is stored and the condition tested is `!_scale`, as in the
non-normalized view. -/
def normMaxBlock (sh : MetadataShape) (j? : Option JsonValue) (v : ScalarViewData) :
    ScalarViewData × Bool :=
  match j? with
  | none => (v, false)
  | some j =>
    let v := { v with max := getValue (normShape sh) j }
    if v.scale = none then ({ v with status := .ErrorInvalidMax }, true) else (v, false)

/-- Min block of the normalized view (PropertyView.h lines 726-733). -/
def normMinBlock (sh : MetadataShape) (j? : Option JsonValue) (v : ScalarViewData) :
    ScalarViewData × Bool :=
  match j? with
  | none => (v, false)
  | some j =>
    let v := { v with min := getValue (normShape sh) j }
    if v.scale = none then ({ v with status := .ErrorInvalidMin }, true) else (v, false)

/-- Required checks of the normalized view (PropertyView.h lines 735-747):
a required property with a declared noData errors, then one with a
declared default errors. -/
def normRequiredBlock (nd df : Option JsonValue) (v : ScalarViewData) :
    ScalarViewData × Bool :=
  if v.required then
    match nd with
    | some _ => ({ v with status := .ErrorInvalidNoDataValue }, true)
    | none =>
      match df with
      | some _ => ({ v with status := .ErrorInvalidDefaultValue }, true)
      | none => (v, false)
  else (v, false)

/-- NoData block of the normalized view (PropertyView.h lines 749-756):
parsed as the raw element shape. -/
def normNoDataBlock (sh : MetadataShape) (j? : Option JsonValue) (v : ScalarViewData) :
    ScalarViewData × Bool :=
  match j? with
  | none => (v, false)
  | some j =>
    let v := { v with noData := getValue sh j }
    if v.noData = none then ({ v with status := .ErrorInvalidNoDataValue }, true) else (v, false)

/-- Default block of the normalized view (PropertyView.h lines 758-765):
parsed as the normalized shape. -/
def normDefaultBlock (sh : MetadataShape) (j? : Option JsonValue) (v : ScalarViewData) :
    ScalarViewData × Bool :=
  match j? with
  | none => (v, false)
  | some j =>
    let v := { v with defaultValue := getValue (normShape sh) j }
    if v.defaultValue = none then
      ({ v with status := .ErrorInvalidDefaultValue }, true)
    else (v, false)

/-- `PropertyView<ElementType, true>::PropertyView(const ClassProperty&)`
(PropertyView.h lines 682-766).  The normalization check at lines 695-697
assigns `ErrorInvalidNormalization` WITHOUT returning (unlike every other
error site of the file), so the remaining blocks still run and may
overwrite the status. -/
def propertyViewScalarNorm (sh : MetadataShape) (cp : ClassProperty) : ScalarViewData :=
  let v0 : ScalarViewData :=
    { status := validatePropertyType sh cp, offset := none, scale := none, max := none,
      min := none, required := cp.required, noData := none, defaultValue := none }
  let p := if v0.status ≠ .Valid then (v0, true) else (v0, false)
  let p := seqBlock p (fun v =>
    (if cp.normalized = false then { v with status := .ErrorInvalidNormalization } else v, false))
  let p := seqBlock p (normOffsetBlock sh cp.offset)
  let p := seqBlock p (normScaleBlock sh cp.scale)
  let p := seqBlock p (normMaxBlock sh cp.max)
  let p := seqBlock p (normMinBlock sh cp.min)
  let p := seqBlock p (normRequiredBlock cp.noData cp.defaultProperty)
  let p := seqBlock p (normNoDataBlock sh cp.noData)
  let p := seqBlock p (normDefaultBlock sh cp.defaultProperty)
  p.1

/-- The derived state of a numeric array property view
(`PropertyView<PropertyArrayView<ElementType>, Normalized>`): status, the
declared fixed count, and the resolved fields, each standing for the
optional packed byte buffer as its list of parsed elements. -/
structure ArrayViewData where
  status : PropertyViewStatus
  count : Int
  offset : Option (List (List ℚ))
  scale : Option (List (List ℚ))
  max : Option (List (List ℚ))
  min : Option (List (List ℚ))
  required : Bool
  noData : Option (List (List ℚ))
  defaultValue : Option (List (List ℚ))
  deriving DecidableEq

/-- Offset block of the non-normalized array view (PropertyView.h lines
1340-1356, and identically lines 1451-1467 / 1519-1535 of its override
constructors): float-gated; the parsed buffer is accepted when the count
is 0 or the buffer's byte size (`_offset->size()`) equals the count, else
`ErrorInvalidOffset`. -/
def arrayOffsetBlock (sh : MetadataShape) (j? : Option JsonValue) (v : ArrayViewData) :
    ArrayViewData × Bool :=
  match j? with
  | none => (v, false)
  | some j =>
    if isFloatingComp (shapeComponent sh) then
      let parsed := getArrayValue sh j
      let v := { v with offset := parsed }
      match parsed with
      | some xs =>
        if v.count = 0 ∨ arrayByteSize sh xs = v.count then (v, false)
        else ({ v with status := .ErrorInvalidOffset }, true)
      | none => ({ v with status := .ErrorInvalidOffset }, true)
    else ({ v with status := .ErrorInvalidOffset }, true)

/-- Scale block of the non-normalized array view (PropertyView.h lines
1358-1374, and identically in its override constructors). -/
def arrayScaleBlock (sh : MetadataShape) (j? : Option JsonValue) (v : ArrayViewData) :
    ArrayViewData × Bool :=
  match j? with
  | none => (v, false)
  | some j =>
    if isFloatingComp (shapeComponent sh) then
      let parsed := getArrayValue sh j
      let v := { v with scale := parsed }
      match parsed with
      | some xs =>
        if v.count = 0 ∨ arrayByteSize sh xs = v.count then (v, false)
        else ({ v with status := .ErrorInvalidScale }, true)
      | none => ({ v with status := .ErrorInvalidScale }, true)
    else ({ v with status := .ErrorInvalidScale }, true)

/-- Max block of the non-normalized array view's class constructor
(PropertyView.h lines 1376-1384): no float gating; errors when the parse
fails or the count is positive and the buffer's byte size differs from
it. -/
def arrayMaxBlockClass (sh : MetadataShape) (j? : Option JsonValue) (v : ArrayViewData) :
    ArrayViewData × Bool :=
  match j? with
  | none => (v, false)
  | some j =>
    let parsed := getArrayValue sh j
    let v := { v with max := parsed }
    match parsed with
    | some xs =>
      if 0 < v.count ∧ arrayByteSize sh xs ≠ v.count then
        ({ v with status := .ErrorInvalidMax }, true)
      else (v, false)
    | none => ({ v with status := .ErrorInvalidMax }, true)

/-- Min block of the non-normalized array view's class constructor
(PropertyView.h lines 1386-1394). -/
def arrayMinBlockClass (sh : MetadataShape) (j? : Option JsonValue) (v : ArrayViewData) :
    ArrayViewData × Bool :=
  match j? with
  | none => (v, false)
  | some j =>
    let parsed := getArrayValue sh j
    let v := { v with min := parsed }
    match parsed with
    | some xs =>
      if 0 < v.count ∧ arrayByteSize sh xs ≠ v.count then
        ({ v with status := .ErrorInvalidMin }, true)
      else (v, false)
    | none => ({ v with status := .ErrorInvalidMin }, true)

/-- NoData block of the non-normalized array view (PropertyView.h lines
1396-1405): parsed only when not required; only the parse result is
tested — the element count is NOT checked against the declared count. -/
def arrayNoDataBlock (sh : MetadataShape) (j? : Option JsonValue) (v : ArrayViewData) :
    ArrayViewData × Bool :=
  match j? with
  | none => (v, false)
  | some j =>
    let v := if v.required = false then { v with noData := getArrayValue sh j } else v
    if v.noData = none then ({ v with status := .ErrorInvalidNoDataValue }, true) else (v, false)

/-- Default block of the non-normalized array view (PropertyView.h lines
1407-1417): like noData, no size check. -/
def arrayDefaultBlock (sh : MetadataShape) (j? : Option JsonValue) (v : ArrayViewData) :
    ArrayViewData × Bool :=
  match j? with
  | none => (v, false)
  | some j =>
    let v := if v.required = false then { v with defaultValue := getArrayValue sh j } else v
    if v.defaultValue = none then
      ({ v with status := .ErrorInvalidDefaultValue }, true)
    else (v, false)

/-- `PropertyView<PropertyArrayView<ElementType>>::PropertyView(const
ClassProperty&)` (PropertyView.h lines 1320-1418). -/
def propertyViewArray (sh : MetadataShape) (cp : ClassProperty) : ArrayViewData :=
  let v0 : ArrayViewData :=
    { status := validateArrayPropertyType sh cp, count := cp.count.getD 0, offset := none,
      scale := none, max := none, min := none, required := cp.required, noData := none,
      defaultValue := none }
  let p := if v0.status ≠ .Valid then (v0, true) else (v0, false)
  let p := seqBlock p (fun v =>
    if cp.normalized then ({ v with status := .ErrorInvalidNormalization }, true) else (v, false))
  let p := seqBlock p (arrayOffsetBlock sh cp.offset)
  let p := seqBlock p (arrayScaleBlock sh cp.scale)
  let p := seqBlock p (arrayMaxBlockClass sh cp.max)
  let p := seqBlock p (arrayMinBlockClass sh cp.min)
  let p := seqBlock p (arrayNoDataBlock sh cp.noData)
  let p := seqBlock p (arrayDefaultBlock sh cp.defaultProperty)
  p.1

/-- Offset/scale/max/min blocks of the normalized array view's class
constructor all follow one pattern (PropertyView.h lines 1799-1837):
parse as the normalized shape, error when the parse fails or the count is
positive and the buffer's byte size differs from it.  This is the offset
block (lines 1799-1807), reused verbatim by the override constructors
(lines 1894-1902, 1949-1957). -/
def normArrayOffsetBlock (sh : MetadataShape) (j? : Option JsonValue) (v : ArrayViewData) :
    ArrayViewData × Bool :=
  match j? with
  | none => (v, false)
  | some j =>
    let parsed := getArrayValue (normShape sh) j
    let v := { v with offset := parsed }
    match parsed with
    | some xs =>
      if 0 < v.count ∧ arrayByteSize (normShape sh) xs ≠ v.count then
        ({ v with status := .ErrorInvalidOffset }, true)
      else (v, false)
    | none => ({ v with status := .ErrorInvalidOffset }, true)

/-- Scale block of the normalized array view's CLASS constructor
(PropertyView.h lines 1809-1817): the usual pattern with `&&`. -/
def normArrayScaleBlockClass (sh : MetadataShape) (j? : Option JsonValue) (v : ArrayViewData) :
    ArrayViewData × Bool :=
  match j? with
  | none => (v, false)
  | some j =>
    let parsed := getArrayValue (normShape sh) j
    let v := { v with scale := parsed }
    match parsed with
    | some xs =>
      if 0 < v.count ∧ arrayByteSize (normShape sh) xs ≠ v.count then
        ({ v with status := .ErrorInvalidScale }, true)
      else (v, false)
    | none => ({ v with status := .ErrorInvalidScale }, true)

/-- Scale block of the normalized array view's OVERRIDE constructors
(PropertyView.h lines 1904-1912 and 1959-1967): here the source tests
`(_count > 0 || _scale->size() != static_cast<size_t>(_count))` — an OR
where the class-level block and every sibling block use AND — so any
positive count, and any non-empty scale under a variable count, sets
`ErrorInvalidScale`. -/
def normArrayScaleBlockOverride (sh : MetadataShape) (j? : Option JsonValue) (v : ArrayViewData) :
    ArrayViewData × Bool :=
  match j? with
  | none => (v, false)
  | some j =>
    let parsed := getArrayValue (normShape sh) j
    let v := { v with scale := parsed }
    match parsed with
    | some xs =>
      if 0 < v.count ∨ arrayByteSize (normShape sh) xs ≠ v.count then
        ({ v with status := .ErrorInvalidScale }, true)
      else (v, false)
    | none => ({ v with status := .ErrorInvalidScale }, true)

/-- Max block of the normalized array view (PropertyView.h lines
1819-1827; identical at lines 1914-1922, 1969-1977). -/
def normArrayMaxBlock (sh : MetadataShape) (j? : Option JsonValue) (v : ArrayViewData) :
    ArrayViewData × Bool :=
  match j? with
  | none => (v, false)
  | some j =>
    let parsed := getArrayValue (normShape sh) j
    let v := { v with max := parsed }
    match parsed with
    | some xs =>
      if 0 < v.count ∧ arrayByteSize (normShape sh) xs ≠ v.count then
        ({ v with status := .ErrorInvalidMax }, true)
      else (v, false)
    | none => ({ v with status := .ErrorInvalidMax }, true)

/-- Min block of the normalized array view (PropertyView.h lines
1829-1837; identical at lines 1924-1932, 1979-1987). -/
def normArrayMinBlock (sh : MetadataShape) (j? : Option JsonValue) (v : ArrayViewData) :
    ArrayViewData × Bool :=
  match j? with
  | none => (v, false)
  | some j =>
    let parsed := getArrayValue (normShape sh) j
    let v := { v with min := parsed }
    match parsed with
    | some xs =>
      if 0 < v.count ∧ arrayByteSize (normShape sh) xs ≠ v.count then
        ({ v with status := .ErrorInvalidMin }, true)
      else (v, false)
    | none => ({ v with status := .ErrorInvalidMin }, true)

/-- NoData block of the normalized array view (PropertyView.h lines
1839-1848): parsed as the raw element shape when not required; no size
check. -/
def normArrayNoDataBlock (sh : MetadataShape) (j? : Option JsonValue) (v : ArrayViewData) :
    ArrayViewData × Bool :=
  match j? with
  | none => (v, false)
  | some j =>
    let v := if v.required = false then { v with noData := getArrayValue sh j } else v
    if v.noData = none then ({ v with status := .ErrorInvalidNoDataValue }, true) else (v, false)

/-- Default block of the normalized array view (PropertyView.h lines
1850-1860): parsed as the normalized shape when not required; no size
check. -/
def normArrayDefaultBlock (sh : MetadataShape) (j? : Option JsonValue) (v : ArrayViewData) :
    ArrayViewData × Bool :=
  match j? with
  | none => (v, false)
  | some j =>
    let v :=
      if v.required = false then { v with defaultValue := getArrayValue (normShape sh) j } else v
    if v.defaultValue = none then
      ({ v with status := .ErrorInvalidDefaultValue }, true)
    else (v, false)

/-- `PropertyView<PropertyArrayView<ElementType>, true>::PropertyView(const
ClassProperty&)` (PropertyView.h lines 1779-1861).  Here the
normalization check (lines 1794-1797) DOES return on error. -/
def propertyViewNormArray (sh : MetadataShape) (cp : ClassProperty) : ArrayViewData :=
  let v0 : ArrayViewData :=
    { status := validateArrayPropertyType sh cp, count := cp.count.getD 0, offset := none,
      scale := none, max := none, min := none, required := cp.required, noData := none,
      defaultValue := none }
  let p := if v0.status ≠ .Valid then (v0, true) else (v0, false)
  let p := seqBlock p (fun v =>
    if cp.normalized = false then
      ({ v with status := .ErrorInvalidNormalization }, true)
    else (v, false))
  let p := seqBlock p (normArrayOffsetBlock sh cp.offset)
  let p := seqBlock p (normArrayScaleBlockClass sh cp.scale)
  let p := seqBlock p (normArrayMaxBlock sh cp.max)
  let p := seqBlock p (normArrayMinBlock sh cp.min)
  let p := seqBlock p (normArrayNoDataBlock sh cp.noData)
  let p := seqBlock p (normArrayDefaultBlock sh cp.defaultProperty)
  p.1

/-- Override re-resolution of the normalized array view, shared by the
token-identical `PropertyTableProperty` and `PropertyTextureProperty`
constructors (PropertyView.h lines 1884-1933 and 1939-1988): offset, the
OR-conditioned scale block, max, min. -/
def applyNormArrayOverride (sh : MetadataShape) (ov : PropertyOverride) (v0 : ArrayViewData) :
    ArrayViewData :=
  let p := if v0.status ≠ .Valid then (v0, true) else (v0, false)
  let p := seqBlock p (normArrayOffsetBlock sh ov.offset)
  let p := seqBlock p (normArrayScaleBlockOverride sh ov.scale)
  let p := seqBlock p (normArrayMaxBlock sh ov.max)
  let p := seqBlock p (normArrayMinBlock sh ov.min)
  p.1

/-- `PropertyView<PropertyArrayView<ElementType>, true>::PropertyView(const
ClassProperty&, const PropertyTableProperty&)` (PropertyView.h lines
1884-1933). -/
def propertyViewNormArrayTable (sh : MetadataShape) (cp : ClassProperty) (ov : PropertyOverride) :
    ArrayViewData :=
  applyNormArrayOverride sh ov (propertyViewNormArray sh cp)

/-- `PropertyView<PropertyArrayView<ElementType>, true>::PropertyView(const
ClassProperty&, const PropertyTextureProperty&)` (PropertyView.h lines
1939-1988). -/
def propertyViewNormArrayTexture (sh : MetadataShape) (cp : ClassProperty)
    (ov : PropertyOverride) : ArrayViewData :=
  applyNormArrayOverride sh ov (propertyViewNormArray sh cp)

/-- Loop of `PropertyView<PropertyArrayView<bool>>::getBooleanArrayValue`
(PropertyView.h lines 2343-2363), carrying the byte buffer, the byte and
bit indices and the running logical size.  The growth condition is the
source's `values.size() < byteIndex - 1` evaluated in `size_t`
arithmetic: for `byteIndex = 0` the subtraction wraps to `2^64 - 1`.  A
non-bool element resets the size to 0 and returns the bytes accumulated
so far.  (Writing a bit at a byte index at or beyond the buffer's size —
reachable for arrays longer than 64 — is out-of-bounds in the source; the
model makes it a no-op.) -/
def booleanArrayLoop : List JsonValue → List Nat → Nat → Nat → Int → List Nat × Int
  | [], values, _, _, size => (values, size)
  | j :: rest, values, byteIndex, bitIndex, size =>
    match j with
    | .jbool b =>
      let values :=
        if values.length < (if byteIndex = 0 then 2 ^ 64 - 1 else byteIndex - 1) then
          values ++ [0]
        else values
      let bit := (if b then 1 else 0) <<< bitIndex
      let values := values.set byteIndex ((values.getD byteIndex 0) ||| bit)
      if bitIndex + 1 > 7 then booleanArrayLoop rest values (byteIndex + 1) 0 (size + 1)
      else booleanArrayLoop rest values byteIndex (bitIndex + 1) (size + 1)
    | _ => (values, 0)

/-- `PropertyView<PropertyArrayView<bool>>::getBooleanArrayValue`
(PropertyView.h lines 2329-2366): returns the packed byte buffer and the
logical element count (the `size` out-parameter, 0 at the call sites'
initial state). -/
def getBooleanArrayValue (j : JsonValue) : List Nat × Int :=
  match j with
  | .jarr xs => booleanArrayLoop xs [] 0 0 0
  | _ => ([], 0)

/-- All-or-nothing extraction of a JSON array's elements as strings
(the per-element `isString` loop of `getStringArrayValue`,
PropertyView.h lines 2600-2609). -/
def extractStrings : List JsonValue → Option (List String)
  | [] => some []
  | .jstr s :: rest => (extractStrings rest).map (fun t => s :: t)
  | _ :: _ => none

/-- Byte length of a string (`std::string::size()`, the UTF-8 byte
count). -/
def strByteSize (s : String) : Nat :=
  (s.data.map Char.utf8Size).sum

/-- The `stringOffsets` table built by `getStringArrayValue`
(PropertyView.h lines 2593-2608): starts at 0, and each element appends
the previous entry plus the string's byte length — the scan of the sizes
under addition. -/
def offsetsOfSizes (sizes : List Nat) : List Nat :=
  List.scanl (fun a b => a + b) 0 sizes

/-- Little-endian byte encoding of one offset at a given byte width, with
the truncation of `static_cast<T>` (bytes beyond the width are dropped);
this is the `memcpy` of one `T` in `narrowOffsetsBuffer` on the
little-endian layout the repository fixes. -/
def encodeLE (w : Nat) (x : Nat) : List Nat :=
  (List.range w).map (fun k => x / 256 ^ k % 256)

/-- `narrowOffsetsBuffer<T>` (PropertyView.h lines 2640-2651): each offset
narrowed to `T` and appended to the byte buffer; `w` is `sizeof(T)`.
The Uint64 branch of `getStringArrayValue` (lines 2629-2633), a direct
`memcpy` of the 64-bit offsets, is the same encoding at width 8. -/
def narrowOffsetsBuffer (w : Nat) (offsets : List Nat) : List Nat :=
  (offsets.map (encodeLE w)).flatten

/-- `PropertyView<PropertyArrayView<std::string_view>>::getStringArrayValue`
(PropertyView.h lines 2583-2638): returns (value buffer, offset buffer,
offset component type, logical size).  On a non-array or a non-string
element it returns an empty value buffer leaving the out-parameters at
their callers' initial state (empty offsets, component type None, size
0).  The value buffer — built in the source by `memcpy` of each string at
its prefix-sum offset into a buffer of the total length — is the in-order
concatenation of the strings.  The offset width is chosen by the
`totalLength` thresholds of lines 2620-2633. -/
def getStringArrayValue (j : JsonValue) : String × List Nat × PropertyComponentType × Int :=
  match j with
  | .jarr xs =>
    match extractStrings xs with
    | none => ("", [], .cnone, 0)
    | some strs =>
      let stringOffsets := offsetsOfSizes (strs.map strByteSize)
      let totalLength := stringOffsets.getLastD 0
      let values := String.join strs
      if totalLength ≤ 2 ^ 8 - 1 then
        (values, narrowOffsetsBuffer 1 stringOffsets, .uint8, (strs.length : Int))
      else if totalLength ≤ 2 ^ 16 - 1 then
        (values, narrowOffsetsBuffer 2 stringOffsets, .uint16, (strs.length : Int))
      else if totalLength ≤ 2 ^ 32 - 1 then
        (values, narrowOffsetsBuffer 4 stringOffsets, .uint32, (strs.length : Int))
      else
        (values, narrowOffsetsBuffer 8 stringOffsets, .uint64, (strs.length : Int))
  | _ => ("", [], .cnone, 0)

/-- The derived state of the string array property view
(`PropertyView<PropertyArrayView<std::string_view>>`, PropertyView.h
lines 2373-2652). -/
structure StringArrayViewData where
  status : PropertyViewStatus
  count : Int
  required : Bool
  noData : String
  noDataOffsets : List Nat
  noDataOffsetType : PropertyComponentType
  noDataSize : Int
  defaultValue : String
  defaultValueOffsets : List Nat
  defaultValueOffsetType : PropertyComponentType
  defaultValueSize : Int
  deriving DecidableEq

/-- NoData block of the string array view's constructor (PropertyView.h
lines 2411-2424): decoded only when not required; errors when the decoded
size is 0 or a positive count differs from the decoded size. -/
def stringArrayNoDataBlock (j? : Option JsonValue) (v : StringArrayViewData) :
    StringArrayViewData × Bool :=
  match j? with
  | none => (v, false)
  | some j =>
    let v :=
      if v.required = false then
        let r := getStringArrayValue j
        { v with noData := r.1, noDataOffsets := r.2.1, noDataOffsetType := r.2.2.1,
                 noDataSize := r.2.2.2 }
      else v
    if v.noDataSize = 0 ∨ (0 < v.count ∧ v.noDataSize ≠ v.count) then
      ({ v with status := .ErrorInvalidNoDataValue }, true)
    else (v, false)

/-- Default block of the string array view's constructor (PropertyView.h
lines 2426-2440): the fixed-count condition at line 2435 reads
`_noDataSize != _count`, i.e. it compares the NO-DATA size — not the
default value's size — against the count. -/
def stringArrayDefaultBlock (j? : Option JsonValue) (v : StringArrayViewData) :
    StringArrayViewData × Bool :=
  match j? with
  | none => (v, false)
  | some j =>
    let v :=
      if v.required = false then
        let r := getStringArrayValue j
        { v with defaultValue := r.1, defaultValueOffsets := r.2.1,
                 defaultValueOffsetType := r.2.2.1, defaultValueSize := r.2.2.2 }
      else v
    if v.defaultValueSize = 0 ∨ (0 < v.count ∧ v.noDataSize ≠ v.count) then
      ({ v with status := .ErrorInvalidDefaultValue }, true)
    else (v, false)

/-- `PropertyView<PropertyArrayView<std::string_view>>::PropertyView(const
ClassProperty&)` (PropertyView.h lines 2394-2441). -/
def propertyViewStringArray (cp : ClassProperty) : StringArrayViewData :=
  let v0 : StringArrayViewData :=
    { status := validateStringArrayPropertyType cp, count := cp.count.getD 0,
      required := cp.required, noData := "", noDataOffsets := [], noDataOffsetType := .cnone,
      noDataSize := 0, defaultValue := "", defaultValueOffsets := [],
      defaultValueOffsetType := .cnone, defaultValueSize := 0 }
  let p := if v0.status ≠ .Valid then (v0, true) else (v0, false)
  let p := seqBlock p (stringArrayNoDataBlock cp.noData)
  let p := seqBlock p (stringArrayDefaultBlock cp.defaultProperty)
  p.1

/-- The `noData()` accessor of the string array view (PropertyView.h lines
2532-2544): a view over the no-data buffers when `_noDataSize > 0`. -/
def stringArrayNoDataAccessor (v : StringArrayViewData) :
    Option (String × List Nat × PropertyComponentType × Int) :=
  if 0 < v.noDataSize then some (v.noData, v.noDataOffsets, v.noDataOffsetType, v.noDataSize)
  else none

/-- The `defaultValue()` accessor of the string array view (PropertyView.h
lines 2549-2564): it is guarded by `_noDataSize > 0` — the NO-DATA size,
not the default value's size — and returns a view over the default-value
buffers. -/
def stringArrayDefaultValueAccessor (v : StringArrayViewData) :
    Option (String × List Nat × PropertyComponentType × Int) :=
  if 0 < v.noDataSize then
    some (v.defaultValue, v.defaultValueOffsets, v.defaultValueOffsetType, v.defaultValueSize)
  else none

/-- Modelled from the spec: `normalize` of PropertyTransformations.h (not
under src/) — an unsigned integer maps linearly to [0,1] by the type's
maximum, a signed integer maps to [-1,1] by the type's maximum magnitude
with the most negative value clamped to -1. -/
def normalize (ct : PropertyComponentType) (x : ℚ) : ℚ :=
  if isSignedComp ct then max (x / (intMaxOf ct : ℚ)) (-1)
  else x / (intMaxOf ct : ℚ)

/-- Modelled from the spec: the per-element loop body of the normalized
array view's `applyValueTransforms` (PropertyView.h lines 2088-2108).
The source loop is ill-formed C++ — it reads `offset.size()` and
`scale[i]` directly on `std::optional` values, and its scale branch
assigns the scalar `applyScale(result[i], scale[i])` to the whole
`std::vector` `result` — so this definition renders the spec's stated
semantics, which the adjacent well-formed offset branch
(`result[i] = result[i] + offset[i]`) also follows: element `i` is
normalized, multiplied by `scale[i]` when `i` is within the scale array,
then incremented by `offset[i]` when `i` is within the offset array. -/
def transformFrom (ct : PropertyComponentType) (off sc : List ℚ) : Nat → List ℚ → List ℚ
  | _, [] => []
  | i, x :: rest =>
    (let r := normalize ct x
     let r := if i < sc.length then r * sc.getD i 0 else r
     if i < off.length then r + off.getD i 0 else r) :: transformFrom ct off sc (i + 1) rest

/-- Modelled from the spec: `applyValueTransforms` of the normalized array
view as §4.4 describes it, elementwise from index 0. -/
def applyValueTransformsIntended (ct : PropertyComponentType) (off sc v : List ℚ) : List ℚ :=
  transformFrom ct off sc 0 v

/-- An integer component type is not a floating-point component type. -/
theorem isIntegerComp_not_floating (ct : PropertyComponentType)
    (h : isIntegerComp ct = true) : isFloatingComp ct = false := by
  cases ct <;> simp_all [isIntegerComp, isFloatingComp]

/-- A UINT8 scalar class property, normalized=false, with a malformed
offset value (a string). -/
def cpC1bad : ClassProperty :=
  { type := "SCALAR", componentType := some "UINT8", array := false, count := none,
    normalized := false, required := false, offset := some (.jstr "x"), scale := none,
    max := none, min := none, noData := none, defaultProperty := none }

/-- The same class property with a well-formed offset value. -/
def cpC1good : ClassProperty := { cpC1bad with offset := some (.jnum 3) }

/-- C1: the claim says that once the normalized scalar view records
`ErrorInvalidNormalization` for `normalized=false`, no later field is
resolved and the status cannot be overwritten.  On the code
(PropertyView.h lines 695-697, the one error site without a `return`),
with `normalized=false` and a malformed offset the status ends up
`ErrorInvalidOffset`, and with a well-formed offset the status is
`ErrorInvalidNormalization` but the offset field is nevertheless
resolved and populated. -/
theorem c1_normalized_view_error_not_permanent :
    (propertyViewScalarNorm (.scalar .uint8) cpC1bad).status = .ErrorInvalidOffset
    ∧ (propertyViewScalarNorm (.scalar .uint8) cpC1good).status = .ErrorInvalidNormalization
    ∧ (propertyViewScalarNorm (.scalar .uint8) cpC1good).offset = some [3] := by decide

/-- C2: for a non-normalized floating-point view whose class property
declares a parseable offset and nothing else, and whose table (or
texture) override declares a parseable offset and nothing else, the view
is Valid and its offset is the override's parsed value. -/
theorem c2_override_offset_precedence (sh : MetadataShape) (cp : ClassProperty)
    (ov : PropertyOverride) (j1 j2 : JsonValue) (q1 q2 : List ℚ)
    (hfl : isFloatingComp (shapeComponent sh) = true)
    (hv : validatePropertyType sh cp = .Valid)
    (hn : cp.normalized = false)
    (h1 : cp.offset = some j1) (hp1 : getValue sh j1 = some q1)
    (hs : cp.scale = none) (hm : cp.max = none) (hmin : cp.min = none)
    (hnd : cp.noData = none) (hd : cp.defaultProperty = none)
    (h2 : ov.offset = some j2) (hp2 : getValue sh j2 = some q2)
    (hos : ov.scale = none) (hom : ov.max = none) (homin : ov.min = none) :
    ((propertyViewScalarTable sh cp ov).status = .Valid
      ∧ (propertyViewScalarTable sh cp ov).offset = some q2)
    ∧ ((propertyViewScalarTexture sh cp ov).status = .Valid
      ∧ (propertyViewScalarTexture sh cp ov).offset = some q2) := by
  have hbase :
      propertyViewScalar sh cp =
        { status := .Valid, offset := some q1, scale := none, max := none, min := none,
          required := cp.required, noData := none, defaultValue := none } := by
    simp [propertyViewScalar, seqBlock, scalarOffsetBlock, scalarScaleBlock, scalarMaxBlock,
      scalarMinBlock, scalarNoDataBlock, scalarDefaultBlock, hv, hn, h1, hp1, hs, hm, hmin,
      hnd, hd, hfl]
  constructor <;>
    simp [propertyViewScalarTable, propertyViewScalarTexture, applyScalarOverride, hbase,
      seqBlock, scalarOffsetBlock, scalarScaleBlock, scalarMaxBlock, scalarMinBlock,
      h2, hp2, hos, hom, homin, hfl]

/-- The concrete Schema Descriptor of the C2 witness: FLOAT64 scalar with
class-level offset 10. -/
def cpC2w : ClassProperty :=
  { type := "SCALAR", componentType := some "FLOAT64", array := false, count := none,
    normalized := false, required := false, offset := some (.jnum 10), scale := none,
    max := none, min := none, noData := none, defaultProperty := none }

/-- The concrete Override Descriptor of the C2 witness: offset 20. -/
def ovC2w : PropertyOverride :=
  { offset := some (.jnum 20), scale := none, max := none, min := none }

/-- Witness for C2 at class offset 10 and override offset 20: the view is
Valid and offset() is 20, not 10. -/
theorem c2_override_offset_precedence_witness :
    ((propertyViewScalarTable (.scalar .float64) cpC2w ovC2w).status = .Valid
      ∧ (propertyViewScalarTable (.scalar .float64) cpC2w ovC2w).offset = some [20])
    ∧ ((propertyViewScalarTexture (.scalar .float64) cpC2w ovC2w).status = .Valid
      ∧ (propertyViewScalarTexture (.scalar .float64) cpC2w ovC2w).offset = some [20]) :=
  c2_override_offset_precedence (.scalar .float64) cpC2w ovC2w (.jnum 10) (.jnum 20)
    [10] [20] rfl (by decide) rfl rfl (by decide) rfl rfl rfl rfl rfl rfl (by decide) rfl rfl rfl

/-- A normalized UINT8 scalar-array class property with no raw fields and
no declared count (variable length). -/
def cpC3w : ClassProperty :=
  { type := "SCALAR", componentType := some "UINT8", array := true, count := none,
    normalized := true, required := false, offset := none, scale := none, max := none,
    min := none, noData := none, defaultProperty := none }

/-- An override declaring only scale = [1.0], a parseable one-element
array. -/
def ovC3w : PropertyOverride :=
  { offset := none, scale := some (.jarr [.jnum 1]), max := none, min := none }

/-- C3: the claim says an override scale whose raw JSON parses and whose
element count is unconstrained under a variable-length declaration
(count 0) supersedes the class scale with status Valid.  On the code
(PropertyView.h lines 1904-1912 and 1959-1967) the override scale block
tests `_count > 0 || size mismatch` — an OR where the class-level block
at lines 1809-1817 and every sibling block use AND — so the class-level
view is Valid, the override scale parses to the one-element array [1.0],
and yet both override constructors set `ErrorInvalidScale`. -/
theorem c3_norm_array_override_scale_rejected :
    (propertyViewNormArray (.scalar .uint8) cpC3w).status = .Valid
    ∧ getArrayValue (normShape (.scalar .uint8)) (.jarr [.jnum 1]) = some [[1]]
    ∧ (propertyViewNormArrayTable (.scalar .uint8) cpC3w ovC3w).status = .ErrorInvalidScale
    ∧ (propertyViewNormArrayTexture (.scalar .uint8) cpC3w ovC3w).status =
        .ErrorInvalidScale := by decide

/-- C5: the claim says the boolean-array codec packs n elements into
exactly the ceiling of n/8 bytes, so [true,false,true] gives the single
byte 5.  On the code (PropertyView.h lines 2343-2363), the growth check
`values.size() < byteIndex - 1` wraps in size_t for byteIndex 0 and so
pushes one byte per element across the first eight elements:
[true,false,true] produces the three-byte buffer [5,0,0] (logical size 3
and the bit pattern of byte 0 do match the claim). -/
theorem c5_boolean_packing_buffer_size :
    getBooleanArrayValue (.jarr [.jbool true, .jbool false, .jbool true]) = ([5, 0, 0], 3) := by
  decide

/-- C8: on the non-normalized paths, an integer component type (not
Float32/Float64) with a declared offset yields `ErrorInvalidOffset`, and
with a declared scale (and no declared offset) yields
`ErrorInvalidScale`, for both the scalar and the array views, regardless
of the raw values. -/
theorem c8_integer_offset_scale_gating (sh : MetadataShape) (cp cpA : ClassProperty)
    (hint : isIntegerComp (shapeComponent sh) = true)
    (hv : validatePropertyType sh cp = .Valid)
    (hn : cp.normalized = false)
    (hvA : validateArrayPropertyType sh cpA = .Valid)
    (hnA : cpA.normalized = false) :
    (∀ j, cp.offset = some j → (propertyViewScalar sh cp).status = .ErrorInvalidOffset)
    ∧ (∀ j, cp.offset = none → cp.scale = some j →
        (propertyViewScalar sh cp).status = .ErrorInvalidScale)
    ∧ (∀ j, cpA.offset = some j → (propertyViewArray sh cpA).status = .ErrorInvalidOffset)
    ∧ (∀ j, cpA.offset = none → cpA.scale = some j →
        (propertyViewArray sh cpA).status = .ErrorInvalidScale) := by
  have hfl : isFloatingComp (shapeComponent sh) = false := isIntegerComp_not_floating _ hint
  refine ⟨fun j hj => ?_, fun j hj0 hj => ?_, fun j hj => ?_, fun j hj0 hj => ?_⟩ <;>
    simp [propertyViewScalar, propertyViewArray, seqBlock, scalarOffsetBlock, scalarScaleBlock,
      scalarMaxBlock, scalarMinBlock, scalarNoDataBlock, scalarDefaultBlock, arrayOffsetBlock,
      arrayScaleBlock, arrayMaxBlockClass, arrayMinBlockClass, arrayNoDataBlock,
      arrayDefaultBlock, hv, hn, hvA, hnA, hj, hfl] <;>
    simp [hj0]

/-- A UINT8 scalar class property declaring an offset. -/
def cpC8off : ClassProperty :=
  { type := "SCALAR", componentType := some "UINT8", array := false, count := none,
    normalized := false, required := false, offset := some (.jnum 1), scale := none,
    max := none, min := none, noData := none, defaultProperty := none }

/-- A UINT8 scalar-array class property declaring a scale. -/
def cpC8scale : ClassProperty :=
  { type := "SCALAR", componentType := some "UINT8", array := true, count := none,
    normalized := false, required := false, offset := none, scale := some (.jnum 1),
    max := none, min := none, noData := none, defaultProperty := none }

/-- Witness for C8 at UINT8: a declared offset on the scalar view gives
`ErrorInvalidOffset` and a declared scale on the array view gives
`ErrorInvalidScale`, even though both raw values would parse. -/
theorem c8_integer_offset_scale_gating_witness :
    (propertyViewScalar (.scalar .uint8) cpC8off).status = .ErrorInvalidOffset
    ∧ (propertyViewArray (.scalar .uint8) cpC8scale).status = .ErrorInvalidScale :=
  ⟨(c8_integer_offset_scale_gating (.scalar .uint8) cpC8off cpC8scale rfl (by decide) rfl
      (by decide) rfl).1 (.jnum 1) rfl,
   (c8_integer_offset_scale_gating (.scalar .uint8) cpC8off cpC8scale rfl (by decide) rfl
      (by decide) rfl).2.2.2 (.jnum 1) rfl rfl⟩

/-- A UINT8 scalar-array class property with count 3 and a 2-element
noData array. -/
def cpC4nd : ClassProperty :=
  { type := "SCALAR", componentType := some "UINT8", array := true, count := some 3,
    normalized := false, required := false, offset := none, scale := none, max := none,
    min := none, noData := some (.jarr [.jnum 1, .jnum 2]), defaultProperty := none }

/-- A FLOAT64 scalar-array class property with count 3 and a 3-element
max array. -/
def cpC4max : ClassProperty :=
  { type := "SCALAR", componentType := some "FLOAT64", array := true, count := some 3,
    normalized := false, required := false, offset := none, scale := none,
    max := some (.jarr [.jnum 1, .jnum 2, .jnum 3]), min := none, noData := none,
    defaultProperty := none }

/-- C4 counterexample: the claim says every raw array field with an
element count different from the declared count is invalidated and one
with a matching element count is accepted.  On the code: a 2-element
noData under count 3 is accepted (the numeric array constructors never
size-check noData/default, PropertyView.h lines 1396-1417), and a
3-element FLOAT64 max under count 3 is rejected with `ErrorInvalidMax`
because the comparison at line 1379 reads the buffer's BYTE size
(3 elements * 8 bytes = 24 != 3). -/
theorem c4_counterexample :
    ((propertyViewArray (.scalar .uint8) cpC4nd).status = .Valid
      ∧ (propertyViewArray (.scalar .uint8) cpC4nd).noData = some [[1], [2]])
    ∧ (propertyViewArray (.scalar .float64) cpC4max).status = .ErrorInvalidMax := by decide

/-- C4 as amended: under a declared fixed count greater than 0 the
offset/scale/max/min checks compare the parsed buffer's byte length
(element count times element byte size) with the count — so a declared
max is Valid exactly when its byte length equals the count, and a
2-element max under count 3 always yields `ErrorInvalidMax` (its byte
length is even) — while the noData (and default) arrays are not
size-checked at all. -/
theorem c4_amended_array_count_checks (sh : MetadataShape) (cp : ClassProperty)
    (hv : validateArrayPropertyType sh cp = .Valid)
    (hn : cp.normalized = false)
    (hoff : cp.offset = none) (hsc : cp.scale = none) :
    (∀ j xs, cp.max = some j → getArrayValue sh j = some xs → cp.count = some 3 →
      xs.length = 2 → (propertyViewArray sh cp).status = .ErrorInvalidMax)
    ∧ (∀ j xs c, cp.max = some j → getArrayValue sh j = some xs → cp.count = some c →
        0 < c → cp.min = none → cp.noData = none → cp.defaultProperty = none →
        ((propertyViewArray sh cp).status = .Valid ↔ arrayByteSize sh xs = c))
    ∧ (∀ j xs, cp.max = none → cp.min = none → cp.noData = some j →
        getArrayValue sh j = some xs → cp.required = false → cp.defaultProperty = none →
        (propertyViewArray sh cp).status = .Valid) := by
  refine ⟨fun j xs hm hp hc hlen => ?_, fun j xs c hm hp hc hcpos hmin hnd hd => ?_,
    fun j xs hm hmin hnd hp hreq hd => ?_⟩
  · have hne : arrayByteSize sh xs ≠ (3 : Int) := by
      simp only [arrayByteSize, hlen]
      push_cast
      omega
    simp [propertyViewArray, seqBlock, arrayOffsetBlock, arrayScaleBlock, arrayMaxBlockClass,
      arrayMinBlockClass, arrayNoDataBlock, arrayDefaultBlock, hv, hn, hoff, hsc, hm, hp, hc,
      hne]
  · by_cases hbs : arrayByteSize sh xs = c <;>
      simp [propertyViewArray, seqBlock, arrayOffsetBlock, arrayScaleBlock, arrayMaxBlockClass,
        arrayMinBlockClass, arrayNoDataBlock, arrayDefaultBlock, hv, hn, hoff, hsc, hm, hp, hc,
        hcpos, hmin, hnd, hd, hbs]
  · simp [propertyViewArray, seqBlock, arrayOffsetBlock, arrayScaleBlock, arrayMaxBlockClass,
      arrayMinBlockClass, arrayNoDataBlock, arrayDefaultBlock, hv, hn, hoff, hsc, hm, hp, hmin,
      hnd, hreq, hd]

/-- A UINT8 scalar-array class property with count 3 and a 2-element max
array. -/
def cpC4w : ClassProperty :=
  { type := "SCALAR", componentType := some "UINT8", array := true, count := some 3,
    normalized := false, required := false, offset := none, scale := none,
    max := some (.jarr [.jnum 1, .jnum 2]), min := none, noData := none,
    defaultProperty := none }

/-- Witness for the amended C4: count 3 with a 2-element max yields
`ErrorInvalidMax`. -/
theorem c4_amended_array_count_checks_witness :
    (propertyViewArray (.scalar .uint8) cpC4w).status = .ErrorInvalidMax :=
  (c4_amended_array_count_checks (.scalar .uint8) cpC4w (by decide) rfl rfl rfl).1
    (.jarr [.jnum 1, .jnum 2]) [[1], [2]] rfl (by decide) rfl rfl

/-- A FLOAT64 scalar class property with a parseable scale and a
malformed (string-valued) max. -/
def cpC7ce : ClassProperty :=
  { type := "SCALAR", componentType := some "FLOAT64", array := false, count := none,
    normalized := false, required := false, offset := none, scale := some (.jnum 2),
    max := some (.jstr "x"), min := none, noData := none, defaultProperty := none }

/-- C7 counterexample: the claim says a declared max that fails to parse
yields `ErrorInvalidMax`.  On the code (PropertyView.h lines 314-321) the
max block tests `!_scale`, not the parse result: with a resolved scale
and a max raw value that does not parse, the status stays Valid and the
max field is left empty. -/
theorem c7_counterexample :
    getScalar .float64 (.jstr "x") = none
    ∧ (propertyViewScalar (.scalar .float64) cpC7ce).status = .Valid
    ∧ (propertyViewScalar (.scalar .float64) cpC7ce).max = none := by decide

/-- C7 as amended: for the non-normalized floating-point view, a declared
max (respectively min) yields `ErrorInvalidMax` (`ErrorInvalidMin`)
exactly when no scale value has been resolved at that point — in
particular a declared max or min without a declared scale invalidates
that field — while a max that fails to parse with a resolved scale
leaves the status Valid and the field empty. -/
theorem c7_amended_max_min_scale_gating (sh : MetadataShape) (cp : ClassProperty)
    (hfl : isFloatingComp (shapeComponent sh) = true)
    (hv : validatePropertyType sh cp = .Valid)
    (hn : cp.normalized = false)
    (hoff : cp.offset = none) :
    (∀ j, cp.scale = none → cp.max = some j →
      (propertyViewScalar sh cp).status = .ErrorInvalidMax)
    ∧ (∀ j, cp.scale = none → cp.max = none → cp.min = some j →
        (propertyViewScalar sh cp).status = .ErrorInvalidMin)
    ∧ (∀ js qs jm, cp.scale = some js → getValue sh js = some qs → cp.max = some jm →
        getValue sh jm = none → cp.min = none → cp.noData = none → cp.defaultProperty = none →
        (propertyViewScalar sh cp).status = .Valid ∧ (propertyViewScalar sh cp).max = none) := by
  refine ⟨fun j hs hm => ?_, fun j hs hm hmin => ?_,
    fun js qs jm hs hps hm hpm hmin hnd hd => ?_⟩ <;>
    simp [propertyViewScalar, seqBlock, scalarOffsetBlock, scalarScaleBlock, scalarMaxBlock,
      scalarMinBlock, scalarNoDataBlock, scalarDefaultBlock, hv, hn, hoff, hs, hm, hfl,
      *]

/-- A FLOAT64 scalar class property declaring a parseable max and no
scale. -/
def cpC7w : ClassProperty :=
  { type := "SCALAR", componentType := some "FLOAT64", array := false, count := none,
    normalized := false, required := false, offset := none, scale := none,
    max := some (.jnum 5), min := none, noData := none, defaultProperty := none }

/-- Witness for the amended C7: a declared max without a scale yields
`ErrorInvalidMax`. -/
theorem c7_amended_max_min_scale_gating_witness :
    (propertyViewScalar (.scalar .float64) cpC7w).status = .ErrorInvalidMax :=
  (c7_amended_max_min_scale_gating (.scalar .float64) cpC7w rfl (by decide) rfl rfl).1
    (.jnum 5) rfl rfl

/-- A JSON array all of whose elements are strings extracts to exactly
those strings. -/
theorem extractStrings_map_jstr (strs : List String) :
    extractStrings (strs.map .jstr) = some strs := by
  induction strs with
  | nil => rfl
  | cons s rest ih => simp [extractStrings, ih]

/-- The logical size reported by the string-array codec on an all-string
array is the number of strings, in every width branch. -/
theorem getStringArrayValue_size (strs : List String) :
    (getStringArrayValue (.jarr (strs.map .jstr))).2.2.2 = (strs.length : Int) := by
  simp only [getStringArrayValue, extractStrings_map_jstr]
  split_ifs <;> rfl

/-- C10: for a string-array view whose class property is not required,
declares no noData, and declares a default that is a non-empty JSON
array of strings: the default is decoded and stored (its stored size is
the number of strings), yet `defaultValue()` returns nothing because its
guard reads the no-data size; and under a positive fixed count the
status is `ErrorInvalidDefaultValue` because the constructor's count
check also reads the no-data size, while without a positive count the
view is Valid. -/
theorem c10_string_array_default_guarded_by_nodata (cp : ClassProperty) (strs : List String)
    (hv : validateStringArrayPropertyType cp = .Valid)
    (hreq : cp.required = false)
    (hnd : cp.noData = none)
    (hd : cp.defaultProperty = some (.jarr (strs.map .jstr)))
    (hne : strs ≠ []) :
    stringArrayDefaultValueAccessor (propertyViewStringArray cp) = none
    ∧ (propertyViewStringArray cp).defaultValueSize = (strs.length : Int)
    ∧ (0 : Int) < strs.length
    ∧ (0 < cp.count.getD 0 → (propertyViewStringArray cp).status = .ErrorInvalidDefaultValue)
    ∧ (cp.count.getD 0 ≤ 0 → (propertyViewStringArray cp).status = .Valid) := by
  have hlen : 0 < strs.length := List.length_pos.mpr hne
  have hsz := getStringArrayValue_size strs
  have hszpos : (0 : Int) < (getStringArrayValue (.jarr (strs.map .jstr))).2.2.2 := by
    rw [hsz]
    exact_mod_cast hlen
  have hkey : propertyViewStringArray cp =
      (let r := getStringArrayValue (.jarr (strs.map .jstr))
       let v : StringArrayViewData :=
        { status := .Valid, count := cp.count.getD 0, required := false, noData := "",
          noDataOffsets := [], noDataOffsetType := .cnone, noDataSize := 0,
          defaultValue := r.1, defaultValueOffsets := r.2.1, defaultValueOffsetType := r.2.2.1,
          defaultValueSize := r.2.2.2 }
       if r.2.2.2 = 0 ∨ (0 < cp.count.getD 0 ∧ (0 : Int) ≠ cp.count.getD 0) then
         { v with status := .ErrorInvalidDefaultValue }
       else v) := by
    simp only [propertyViewStringArray, seqBlock, stringArrayNoDataBlock,
      stringArrayDefaultBlock, hv, hreq, hnd, hd]
    simp only [ite_not, if_true, if_false, Bool.false_eq_true, ite_false]
    split <;> rfl
  rw [hkey]
  by_cases hc : 0 < cp.count.getD 0
  · have hcond : ((getStringArrayValue (.jarr (strs.map .jstr))).2.2.2 = 0
        ∨ (0 < cp.count.getD 0 ∧ (0 : Int) ≠ cp.count.getD 0)) := by
      right
      exact ⟨hc, by omega⟩
    simp only [hcond, if_pos, if_true]
    simp [stringArrayDefaultValueAccessor, hsz, hc]
    omega
  · have hcond : ¬((getStringArrayValue (.jarr (strs.map .jstr))).2.2.2 = 0
        ∨ (0 < cp.count.getD 0 ∧ (0 : Int) ≠ cp.count.getD 0)) := by
      push_neg
      exact ⟨by omega, fun h => absurd h hc⟩
    simp only [hcond, if_neg, if_false]
    simp [stringArrayDefaultValueAccessor, hsz, hc]
    omega

/-- The string-array class property of the C10 witness: count 3, default
["a","b"], no noData, not required. -/
def cpC10a : ClassProperty :=
  { type := "STRING", componentType := none, array := true, count := some 3,
    normalized := false, required := false, offset := none, scale := none, max := none,
    min := none, noData := none, defaultProperty := some (.jarr [.jstr "a", .jstr "b"]) }

/-- The same without a declared count. -/
def cpC10b : ClassProperty := { cpC10a with count := none }

/-- Witness for C10: with count 3 the status is
`ErrorInvalidDefaultValue`; without a count the view is Valid, the
default was stored with size 2, and `defaultValue()` still returns
nothing. -/
theorem c10_string_array_default_guarded_by_nodata_witness :
    (propertyViewStringArray cpC10a).status = .ErrorInvalidDefaultValue
    ∧ (propertyViewStringArray cpC10b).status = .Valid
    ∧ (propertyViewStringArray cpC10b).defaultValueSize = 2
    ∧ stringArrayDefaultValueAccessor (propertyViewStringArray cpC10b) = none :=
  ⟨(c10_string_array_default_guarded_by_nodata cpC10a ["a", "b"] (by decide) rfl rfl rfl
      (by decide)).2.2.2.1 (by decide),
   (c10_string_array_default_guarded_by_nodata cpC10b ["a", "b"] (by decide) rfl rfl rfl
      (by decide)).2.2.2.2 (by decide),
   (c10_string_array_default_guarded_by_nodata cpC10b ["a", "b"] (by decide) rfl rfl rfl
      (by decide)).2.1,
   (c10_string_array_default_guarded_by_nodata cpC10b ["a", "b"] (by decide) rfl rfl rfl
      (by decide)).1⟩

/-- Index characterization of the intended per-element transform, from an
arbitrary starting index. -/
theorem transformFrom_getD (ct : PropertyComponentType) (off sc : List ℚ) :
    ∀ (v : List ℚ) (s i : Nat), i < v.length →
      (transformFrom ct off sc s v).getD i 0 =
        (if s + i < sc.length then normalize ct (v.getD i 0) * sc.getD (s + i) 0
         else normalize ct (v.getD i 0))
        + (if s + i < off.length then off.getD (s + i) 0 else 0) := by
  intro v
  induction v with
  | nil => intro s i hi; simp at hi
  | cons x rest ih =>
    intro s i hi
    match i with
    | 0 =>
      simp only [transformFrom, List.getD_cons_zero, Nat.add_zero]
      split_ifs <;> ring
    | Nat.succ i2 =>
      have hi2 : i2 < rest.length := by simpa using hi
      have := ih (s + 1) i2 hi2
      simp only [transformFrom, List.getD_cons_succ]
      rw [this]
      have hidx : s + 1 + i2 = s + (i2 + 1) := by omega
      rw [hidx]

/-- The intended transform preserves the element count. -/
theorem transformFrom_length (ct : PropertyComponentType) (off sc : List ℚ) :
    ∀ (v : List ℚ) (s : Nat), (transformFrom ct off sc s v).length = v.length := by
  intro v
  induction v with
  | nil => intro s; rfl
  | cons x rest ih => intro s; simp [transformFrom, ih]

/-- C9 (for the spec-modelled transform, since the source loop is
ill-formed): the output has the input's length and element i is the
normalization of input i, multiplied by scale[i] when i is within the
scale array, then incremented by offset[i] when i is within the offset
array; elements beyond the stored arrays receive no scale or offset. -/
theorem c9_transform_per_element (ct : PropertyComponentType) (off sc v : List ℚ) :
    (applyValueTransformsIntended ct off sc v).length = v.length
    ∧ ∀ i, i < v.length →
        (applyValueTransformsIntended ct off sc v).getD i 0 =
          (if i < sc.length then normalize ct (v.getD i 0) * sc.getD i 0
           else normalize ct (v.getD i 0))
          + (if i < off.length then off.getD i 0 else 0) := by
  refine ⟨transformFrom_length ct off sc v 0, fun i hi => ?_⟩
  simpa using transformFrom_getD ct off sc v 0 i hi

/-- Witness for C9 at a concrete normalized UINT8 array: [255, 51] with
offset [1/2] and scale [3] — element 0 is normalized (to 1), scaled and
offset; element 1 is beyond both arrays and is only normalized. -/
theorem c9_transform_per_element_witness :
    (applyValueTransformsIntended .uint8 [1/2] [3] [255, 51]).length = 2
    ∧ (applyValueTransformsIntended .uint8 [1/2] [3] [255, 51]).getD 0 0 =
        normalize .uint8 255 * 3 + 1/2
    ∧ (applyValueTransformsIntended .uint8 [1/2] [3] [255, 51]).getD 1 0 =
        normalize .uint8 51 :=
  ⟨by simpa using (c9_transform_per_element .uint8 [1/2] [3] [255, 51]).1,
   by simpa using (c9_transform_per_element .uint8 [1/2] [3] [255, 51]).2 0 (by decide),
   by simpa using (c9_transform_per_element .uint8 [1/2] [3] [255, 51]).2 1 (by decide)⟩

/-- Entry k of the additive scan is the start value plus the sum of the
first k entries. -/
theorem scanl_add_getD (L : List Nat) :
    ∀ (a k : Nat), k ≤ L.length →
      (List.scanl (fun x y => x + y) a L).getD k 0 = a + (L.take k).sum := by
  induction L with
  | nil =>
    intro a k hk
    have hk0 : k = 0 := by simpa using hk
    subst hk0
    simp [List.scanl]
  | cons b rest ih =>
    intro a k hk
    match k with
    | 0 => simp [List.scanl]
    | Nat.succ k2 =>
      have hk2 : k2 ≤ rest.length := by simpa using hk
      simp only [List.scanl_cons, List.singleton_append, List.getD_cons_succ,
        List.take_succ_cons, List.sum_cons]
      rw [ih (a + b) k2 hk2]
      omega

/-- The last entry of the additive scan is the start value plus the total
sum, for any default. -/
theorem scanl_add_getLastD (L : List Nat) :
    ∀ (a d : Nat), (List.scanl (fun x y => x + y) a L).getLastD d = a + L.sum := by
  induction L with
  | nil => intro a d; simp [List.scanl]
  | cons b rest ih =>
    intro a d
    rw [List.scanl_cons, List.singleton_append, List.getLastD_cons, ih (a + b) a,
      List.sum_cons]
    omega

/-- The offset table ends with the total byte length. -/
theorem offsetsOfSizes_getLastD (L : List Nat) :
    (offsetsOfSizes L).getLastD 0 = L.sum := by
  simpa using scanl_add_getLastD L 0 0

/-- Byte width of an offset component type (`sizeof(T)` of the
corresponding C++ offset type). -/
def offsetTypeWidth : PropertyComponentType → Nat
  | .uint8 => 1
  | .uint16 => 2
  | .uint32 => 4
  | .uint64 => 8
  | _ => 0

/-- The width cascade of `getStringArrayValue` as a function of the total
concatenated length. -/
def widthForTotal (n : Nat) : Nat :=
  if n ≤ 2 ^ 8 - 1 then 1 else if n ≤ 2 ^ 16 - 1 then 2 else if n ≤ 2 ^ 32 - 1 then 4 else 8

/-- The spec's narrowest-width condition: w is one of the four unsigned
widths (in bytes: 1/2/4/8 for 8/16/32/64 bits), it can represent n, and
no smaller of the four widths can. -/
def isNarrowestOffsetWidth (w n : Nat) : Prop :=
  w ∈ [1, 2, 4, 8] ∧ n ≤ 256 ^ w - 1 ∧ ∀ w2 ∈ ([1, 2, 4, 8] : List Nat), n ≤ 256 ^ w2 - 1 → w ≤ w2

/-- The width cascade picks exactly the narrowest representable width,
for totals below 2^64 (the range of the source's uint64 total). -/
theorem widthForTotal_narrowest (n : Nat) (h64 : n < 2 ^ 64) :
    isNarrowestOffsetWidth (widthForTotal n) n := by
  unfold isNarrowestOffsetWidth widthForTotal
  by_cases h1 : n ≤ 2 ^ 8 - 1 <;> by_cases h2 : n ≤ 2 ^ 16 - 1 <;>
    by_cases h3 : n ≤ 2 ^ 32 - 1 <;>
    simp only [h1, h2, h3, if_true, if_false, ite_true, ite_false] <;>
    refine ⟨by norm_num, by norm_num; omega, ?_⟩ <;>
    intro w2 hw2 hle <;>
    simp only [List.mem_cons, List.not_mem_nil, or_false] at hw2 <;>
    rcases hw2 with rfl | rfl | rfl | rfl <;>
    norm_num at hle h1 h2 h3 ⊢ <;> omega

/-- Evaluation of the string-array codec on an all-string array: the
value buffer is the in-order concatenation, the offset buffer is the
offset table encoded at the cascade's width, the offset type follows the
thresholds, and the size is the number of strings. -/
theorem getStringArrayValue_map_jstr (strs : List String) :
    getStringArrayValue (.jarr (strs.map .jstr)) =
      (String.join strs,
       narrowOffsetsBuffer (widthForTotal ((strs.map strByteSize).sum))
         (offsetsOfSizes (strs.map strByteSize)),
       (if (strs.map strByteSize).sum ≤ 2 ^ 8 - 1 then .uint8
        else if (strs.map strByteSize).sum ≤ 2 ^ 16 - 1 then .uint16
        else if (strs.map strByteSize).sum ≤ 2 ^ 32 - 1 then .uint32 else .uint64),
       (strs.length : Int)) := by
  have hlast := offsetsOfSizes_getLastD (strs.map strByteSize)
  simp only [getStringArrayValue, extractStrings_map_jstr, hlast, widthForTotal]
  split_ifs <;> rfl

/-- C6: on every string array of N strings accepted by the codec, the
value buffer is the concatenation of the strings in order, the offset
table has N+1 entries that are the prefix sums of the per-string byte
lengths (entry k is the sum of the first k lengths: a leading 0 and a
trailing total), the offset buffer encodes that table at the chosen
width, and the chosen width is the narrowest of 8/16/32/64 bits that can
represent the total length. -/
theorem c6_string_array_codec (strs : List String)
    (h64 : (strs.map strByteSize).sum < 2 ^ 64) :
    (getStringArrayValue (.jarr (strs.map .jstr))).1 = String.join strs
    ∧ (getStringArrayValue (.jarr (strs.map .jstr))).2.2.2 = (strs.length : Int)
    ∧ (offsetsOfSizes (strs.map strByteSize)).length = strs.length + 1
    ∧ (∀ k, k ≤ strs.length →
        (offsetsOfSizes (strs.map strByteSize)).getD k 0 =
          ((strs.map strByteSize).take k).sum)
    ∧ (getStringArrayValue (.jarr (strs.map .jstr))).2.1 =
        narrowOffsetsBuffer
          (offsetTypeWidth (getStringArrayValue (.jarr (strs.map .jstr))).2.2.1)
          (offsetsOfSizes (strs.map strByteSize))
    ∧ isNarrowestOffsetWidth
        (offsetTypeWidth (getStringArrayValue (.jarr (strs.map .jstr))).2.2.1)
        ((strs.map strByteSize).sum) := by
  have hval := getStringArrayValue_map_jstr strs
  have hwidth :
      offsetTypeWidth (getStringArrayValue (.jarr (strs.map .jstr))).2.2.1 =
        widthForTotal ((strs.map strByteSize).sum) := by
    rw [hval]
    unfold widthForTotal
    split_ifs <;> rfl
  refine ⟨by rw [hval], by rw [hval], ?_, ?_, ?_, ?_⟩
  · simp [offsetsOfSizes, List.length_scanl]
  · intro k hk
    have := scanl_add_getD (strs.map strByteSize) 0 k (by simpa using hk)
    simpa [offsetsOfSizes] using this
  · rw [hwidth, hval]
  · rw [hwidth]
    exact widthForTotal_narrowest _ h64

/-- Witness for C6 at ["ab","c","de"]: bytes "abcde", offset buffer
[0,2,3,5] (one byte per entry), offset type Uint8, size 3, and width 1
byte is the narrowest for total length 5. -/
theorem c6_string_array_codec_witness :
    ((["ab", "c", "de"].map strByteSize).sum < 2 ^ 64)
    ∧ (getStringArrayValue (.jarr [.jstr "ab", .jstr "c", .jstr "de"])).1 = "abcde"
    ∧ (getStringArrayValue (.jarr [.jstr "ab", .jstr "c", .jstr "de"])).2.1 = [0, 2, 3, 5]
    ∧ (getStringArrayValue (.jarr [.jstr "ab", .jstr "c", .jstr "de"])).2.2.1 = .uint8
    ∧ (getStringArrayValue (.jarr [.jstr "ab", .jstr "c", .jstr "de"])).2.2.2 = 3
    ∧ isNarrowestOffsetWidth 1 5 := by
  have h := c6_string_array_codec ["ab", "c", "de"] (by decide)
  refine ⟨by decide, by decide, by decide, by decide, by decide, ?_⟩
  have h2 := h.2.2.2.2.2
  simpa [offsetTypeWidth, getStringArrayValue_map_jstr, strByteSize] using h2

end CesiumGltf
